import Mathlib

/-!
Verification of the greetd message store, HTTP message endpoints and
configuration resolver (packages `internal/storage`, `internal/api`,
`internal/config`, `internal/cmd`).

The Go code is shallowly embedded: JSON documents are modelled as an
inductive `Json` value type, the filesystem as an association list from
paths to file contents (a file content is either a parsed JSON document or
raw bytes that are not valid JSON), and fallible I/O operations take a
Boolean oracle saying whether the underlying OS call succeeds.
-/

namespace Greetd

/-- A JSON value, the unit of `encoding/json` marshalling. -/
inductive Json where
  | null
  | bool (b : Bool)
  | num (n : Int)
  | str (s : String)
  | arr (elems : List Json)
  | obj (fields : List (String × Json))

/-- Content of a file on disk: a well-formed JSON document, or raw bytes
that do not parse as JSON. -/
inductive FileContent where
  | json (doc : Json)
  | malformed (raw : String)

/-- The filesystem, as an association list from paths to file contents. -/
abbrev FS := List (String × FileContent)

/-- Look a path up in the filesystem; `none` means the file does not exist
(`os.Stat` reports `IsNotExist`). -/
def fsRead (fs : FS) (path : String) : Option FileContent :=
  match fs with
  | [] => none
  | (p, c) :: rest => if p = path then some c else fsRead rest path

/-- Overwrite (or create) the file at `path`, as `os.WriteFile` does on
success. -/
def fsWrite (fs : FS) (path : String) (content : FileContent) : FS :=
  match fs with
  | [] => [(path, content)]
  | (p, c) :: rest =>
    if p = path then (p, content) :: rest else (p, c) :: fsWrite rest path content

theorem fsRead_fsWrite (fs : FS) (path : String) (content : FileContent) :
    fsRead (fsWrite fs path content) path = some content := by
  induction fs with
  | nil => simp [fsRead, fsWrite]
  | cons hd tl ih =>
    obtain ⟨p, c⟩ := hd
    by_cases h : p = path
    · simp [fsRead, fsWrite, h]
    · simp [fsRead, fsWrite, h, ih]

/-! ## `internal/storage`: the message store (`message.go`) -/

/-- Go struct `storage.MessageData`: the persisted unit, one JSON field
`message`. -/
structure MessageData where
  message : String
deriving DecidableEq

/-- Go struct `storage.MessageStore` (minus the mutex, which only serializes
the operations; every embedded operation below is one critical section). -/
structure MessageStore where
  filePath : String
  data : MessageData
deriving DecidableEq

/-- `storage.NewMessageStore`: points at `<dataPath>/message.json` with
in-memory default `"Hello, World!"`. -/
def NewMessageStore (dataPath : String) : MessageStore :=
  { filePath := dataPath ++ "/message.json"
    data := { message := "Hello, World!" } }

/-- `json.MarshalIndent` of a `MessageData` value, at the document level:
an object with the single field `message`. -/
def marshalMessageData (d : MessageData) : Json :=
  Json.obj [("message", Json.str d.message)]

/-- Canonical folding of one character as performed by `encoding/json`'s
field-name matching (Unicode simple case folding): ASCII upper-case
letters map to lower case, and the two non-ASCII code points whose fold
class contains an ASCII letter — long s (U+017F) and the Kelvin sign
(U+212A) — map to `s` and `k`. Every other simple-fold class contains no
ASCII character, so for comparisons against an ASCII field name such as
`message` this folding agrees exactly with Go's. -/
def foldChar (c : Char) : Char :=
  if 65 ≤ c.toNat ∧ c.toNat ≤ 90 then Char.ofNat (c.toNat + 32)
  else if c.toNat = 383 then 's'
  else if c.toNat = 8490 then 'k'
  else c

/-- Does a JSON object key match the struct field name (tag `message`)?
`encoding/json` matches exactly or under Unicode simple case folding. -/
def keyMatches (k field : String) : Bool :=
  k.data.map foldChar = field.data.map foldChar

/-- Decode one JSON value into the `message` field of a `MessageData`
target, as `encoding/json` does for a `string` field: a JSON string sets
the field, JSON `null` is a no-op, anything else is a type error. -/
def setMessageField (d : MessageData) (v : Json) : Except String MessageData :=
  match v with
  | Json.str s => Except.ok { d with message := s }
  | Json.null => Except.ok d
  | _ => Except.error "cannot unmarshal value into field MessageData.message of type string"

/-- Walk the fields of a JSON object in order, updating the `message` field
on every matching key (later keys overwrite) and ignoring unknown keys, as
`json.Unmarshal` does. -/
def unmarshalFields (fields : List (String × Json)) (d : MessageData) :
    Except String MessageData :=
  match fields with
  | [] => Except.ok d
  | (k, v) :: rest =>
    if keyMatches k "message" then
      match setMessageField d v with
      | Except.ok d2 => unmarshalFields rest d2
      | Except.error e => Except.error e
    else unmarshalFields rest d

/-- `json.Unmarshal` of a document into an existing `MessageData` value
(the store passes `&s.data`, so fields absent from the document keep their
prior in-memory value). Only an object (or `null`, a no-op) can decode
into a struct. -/
def unmarshalMessageData (j : Json) (d : MessageData) : Except String MessageData :=
  match j with
  | Json.obj fields => unmarshalFields fields d
  | Json.null => Except.ok d
  | _ => Except.error "cannot unmarshal value into Go value of type MessageData"

/-- `MessageStore.saveUnsafe` (the Go name marks it as lock-free; the lock
is implicit here): marshal the current data and write it to `filePath`.
`writeOk` is the oracle for the `os.WriteFile` call. -/
def MessageStore.saveNoLock (s : MessageStore) (fs : FS) (writeOk : Bool) :
    Except String FS :=
  if writeOk then
    Except.ok (fsWrite fs s.filePath (FileContent.json (marshalMessageData s.data)))
  else Except.error "failed to write message file"

/-- `MessageStore.Load`: if the backing file does not exist, persist the
current (default) data, creating it; otherwise read it (`readOk` is the
oracle for `os.ReadFile`) and unmarshal it into the current data. On any
error the caller's store and the filesystem are unchanged (no new pair is
produced). -/
def MessageStore.Load (s : MessageStore) (fs : FS) (readOk writeOk : Bool) :
    Except String (MessageStore × FS) :=
  match fsRead fs s.filePath with
  | none =>
    match s.saveNoLock fs writeOk with
    | Except.ok fs2 => Except.ok (s, fs2)
    | Except.error e => Except.error e
  | some content =>
    if readOk then
      match content with
      | FileContent.malformed _ => Except.error "failed to unmarshal message data"
      | FileContent.json j =>
        match unmarshalMessageData j s.data with
        | Except.ok d => Except.ok ({ s with data := d }, fs)
        | Except.error _ => Except.error "failed to unmarshal message data"
    else Except.error "failed to read message file"

/-- `MessageStore.GetMessage`: returns the in-memory value. Its type shows
it reads no filesystem and cannot fail. -/
def MessageStore.GetMessage (s : MessageStore) : String :=
  s.data.message

/-- `MessageStore.SetMessage`: the Go body first assigns
`s.data.Message = message` and then calls the save helper, so the returned
store carries the new message even when the save fails. -/
def MessageStore.SetMessage (s : MessageStore) (fs : FS) (message : String)
    (writeOk : Bool) : MessageStore × Except String FS :=
  let s2 : MessageStore := { s with data := { s.data with message := message } }
  (s2, s2.saveNoLock fs writeOk)

/-! ## `internal/api`: the message endpoints (`handlers.go`) -/

/-- Go struct `api.MessageRequest`: the decoded `POST /message` body. -/
structure MessageRequest where
  message : String
deriving DecidableEq

/-- An HTTP request body as received by the binder: a JSON document or
bytes that are not valid JSON. -/
inductive RequestBody where
  | json (doc : Json)
  | malformed (raw : String)

/-- `c.Bind(&req)` for a JSON request: decode the body into a zero-valued
`MessageRequest` (so a missing `message` field leaves the empty string). -/
def bindMessageRequest (body : RequestBody) : Except String MessageRequest :=
  match body with
  | RequestBody.malformed _ => Except.error "code=400, message=unmarshal error"
  | RequestBody.json j =>
    match unmarshalMessageData j { message := "" } with
    | Except.ok d => Except.ok { message := d.message }
    | Except.error e => Except.error e

/-- An HTTP response: status code plus JSON body, as produced by
`c.JSON(status, payload)`. -/
structure HttpResponse where
  status : Nat
  body : Json

/-- Whitespace as recognized by `unicode.IsSpace` (the Unicode
White_Space property): tab through carriage return, space, next line
(U+0085), no-break space (U+00A0), ogham space mark (U+1680), en quad
through hair space (U+2000 to U+200A), line separator (U+2028),
paragraph separator (U+2029), narrow no-break space (U+202F), medium
mathematical space (U+205F) and ideographic space (U+3000).
`strings.TrimSpace` trims exactly these. -/
def isSpaceChar (c : Char) : Bool :=
  decide ((9 ≤ c.toNat ∧ c.toNat ≤ 13) ∨ c.toNat = 32 ∨ c.toNat = 133 ∨
    c.toNat = 160 ∨ c.toNat = 5760 ∨ (8192 ≤ c.toNat ∧ c.toNat ≤ 8202) ∨
    c.toNat = 8232 ∨ c.toNat = 8233 ∨ c.toNat = 8239 ∨ c.toNat = 8287 ∨
    c.toNat = 12288)

/-- `strings.TrimSpace`: strip leading and trailing whitespace. -/
def trimSpace (s : String) : String :=
  String.mk (((s.data.dropWhile isSpaceChar).reverse.dropWhile isSpaceChar).reverse)

/-- `Handlers.SetMessage`: bind the body (400 `Invalid JSON` on failure),
reject a message that trims to empty (400 `Message cannot be empty`), else
store the original untrimmed text; 500 on persistence failure (the store
keeps the mutated in-memory value, the file keeps its old content), else
200 echoing the request message. Returns (response, store, filesystem). -/
def Handlers.SetMessage (s : MessageStore) (fs : FS) (body : RequestBody)
    (writeOk : Bool) : HttpResponse × MessageStore × FS :=
  match bindMessageRequest body with
  | Except.error _ =>
    ({ status := 400, body := Json.obj [("error", Json.str "Invalid JSON")] }, s, fs)
  | Except.ok req =>
    if trimSpace req.message = "" then
      ({ status := 400, body := Json.obj [("error", Json.str "Message cannot be empty")] },
        s, fs)
    else
      match s.SetMessage fs req.message writeOk with
      | (s2, Except.ok fs2) =>
        ({ status := 200, body := Json.obj [("message", Json.str req.message)] }, s2, fs2)
      | (s2, Except.error _) =>
        ({ status := 500, body := Json.obj [("error", Json.str "Failed to save message")] },
          s2, fs)

/-- `Handlers.GetMessage`: 200 with the store's current value. -/
def Handlers.GetMessage (s : MessageStore) : HttpResponse :=
  { status := 200, body := Json.obj [("message", Json.str s.GetMessage)] }

/-! ## `internal/config`: the configuration resolver (`config.go`) and the
flag overrides of `internal/cmd/api.go` -/

/-- Go struct `config.ServerConfig`. -/
structure ServerConfig where
  host : String
  port : Int
deriving DecidableEq

/-- Go struct `config.LogConfig`. -/
structure LogConfig where
  level : String
  format : String
deriving DecidableEq

/-- Go struct `config.Config`. -/
structure Config where
  server : ServerConfig
  logging : LogConfig
  dataPath : String
deriving DecidableEq

/-- `config.DefaultConfig`: built-in defaults, with the data directory
under the user's home directory. -/
def DefaultConfig (homeDir : String) : Config :=
  { server := { host := "0.0.0.0", port := 8080 }
    logging := { level := "info", format := "text" }
    dataPath := homeDir ++ "/.greetd" }

/-- `Config.Save` / `json.MarshalIndent` of a `Config`, at the document
level (the JSON tags `server.host`, `server.port`, `logging.level`,
`logging.format`, `data_path`). -/
def marshalConfig (c : Config) : Json :=
  Json.obj
    [("server", Json.obj [("host", Json.str c.server.host), ("port", Json.num c.server.port)]),
     ("logging", Json.obj [("level", Json.str c.logging.level), ("format", Json.str c.logging.format)]),
     ("data_path", Json.str c.dataPath)]

/-- Field lookup in a JSON object (first match). -/
def Json.getField (j : Json) (key : String) : Option Json :=
  match j with
  | Json.obj fields => lookupField fields key
  | _ => none
where
  lookupField : List (String × Json) → String → Option Json
    | [], _ => none
    | (k, v) :: rest, key => if k = key then some v else lookupField rest key

/-- The integer carried by a JSON number, if the value is one. -/
def Json.asInt (j : Json) : Option Int :=
  match j with
  | Json.num n => some n
  | _ => none

/-- The string carried by a JSON string, if the value is one. -/
def Json.asStr (j : Json) : Option String :=
  match j with
  | Json.str s => some s
  | _ => none

/-- The recognized environment overrides, one optional variable per
configuration field (prefix `GREETD_`, e.g. `GREETD_SERVER_PORT`). -/
structure EnvOverrides where
  serverHost : Option String := none
  serverPort : Option Int := none
  logLevel : Option String := none
  logFormat : Option String := none
  dataPath : Option String := none

/-- Per-key merge performed by viper when `config.Load` unmarshals:
environment variable if set, else the value from the configuration
document if present, else the built-in default registered with
`viper.SetDefault`. -/
def viperResolve (doc : Json) (env : EnvOverrides) (dflt : Config) : Config :=
  { server :=
      { host := env.serverHost.getD
          (((doc.getField "server").bind (fun s => (s.getField "host").bind Json.asStr)).getD
            dflt.server.host)
        port := env.serverPort.getD
          (((doc.getField "server").bind (fun s => (s.getField "port").bind Json.asInt)).getD
            dflt.server.port) }
    logging :=
      { level := env.logLevel.getD
          (((doc.getField "logging").bind (fun l => (l.getField "level").bind Json.asStr)).getD
            dflt.logging.level)
        format := env.logFormat.getD
          (((doc.getField "logging").bind (fun l => (l.getField "format").bind Json.asStr)).getD
            dflt.logging.format) }
    dataPath := env.dataPath.getD
      (((doc.getField "data_path").bind Json.asStr).getD dflt.dataPath) }

/-- `config.Load`: compute defaults, resolve the document path (explicit
argument or `<dataPath>/config.json`), ensure the data directory exists
(`mkdirOk` is the oracle for `os.MkdirAll`), write the defaults when the
document is absent (`writeOk` is the oracle for that write), then read the
document and merge it with environment overrides and defaults. -/
def Config.Load (fs : FS) (configPath homeDir : String) (env : EnvOverrides)
    (mkdirOk writeOk : Bool) : Except String (Config × FS) :=
  let cfg := DefaultConfig homeDir
  let path := if configPath = "" then cfg.dataPath ++ "/config.json" else configPath
  if mkdirOk then
    match fsRead fs path with
    | none =>
      if writeOk then
        let fs2 := fsWrite fs path (FileContent.json (marshalConfig cfg))
        Except.ok (viperResolve (marshalConfig cfg) env cfg, fs2)
      else Except.error "failed to create default config"
    | some (FileContent.malformed _) => Except.error "failed to read config"
    | some (FileContent.json doc) => Except.ok (viperResolve doc env cfg, fs)
  else Except.error "failed to create data directory"

/-- The flag overrides applied by `apiCmd.Run` after `config.Load`: a
non-empty `--host` and a non-zero `--port` replace the resolved values
(the flag defaults are `""` and `0`, meaning "not supplied"). -/
def applyFlags (cfg : Config) (host : String) (port : Int) : Config :=
  let cfg2 := if host ≠ "" then { cfg with server := { cfg.server with host := host } } else cfg
  if port ≠ 0 then { cfg2 with server := { cfg2.server with port := port } } else cfg2

/-- The full resolution pipeline of `apiCmd.Run`: `config.Load` followed by
the flag overrides. -/
def resolveEffective (fs : FS) (homeDir : String) (env : EnvOverrides)
    (host : String) (port : Int) : Except String (Config × FS) :=
  match Config.Load fs "" homeDir env true true with
  | Except.ok (cfg, fs2) => Except.ok (applyFlags cfg host port, fs2)
  | Except.error e => Except.error e

/-! ## Theorems -/

/-- C1, counterexample: the claim says that on a persist failure inside
`SetMessage` the in-memory value is not left updated (so `GetMessage`
returns the pre-call value). In the code `SetMessage` assigns the new
message before saving, so with a failing write the call on a fresh store
(whose value is `"Hello, World!"`) returns an error yet `GetMessage` on
the resulting store returns `"Updated"`, not the pre-call value. -/
theorem setMessage_persist_failure_counterexample :
    (MessageStore.SetMessage (NewMessageStore "/data") [] "Updated" false).2 =
      Except.error "failed to write message file" ∧
    MessageStore.GetMessage (NewMessageStore "/data") = "Hello, World!" ∧
    MessageStore.GetMessage
      (MessageStore.SetMessage (NewMessageStore "/data") [] "Updated" false).1 = "Updated" ∧
    ("Updated" : String) ≠ "Hello, World!" :=
  ⟨rfl, rfl, rfl, by decide⟩

/-- C1, amended: `SetMessage` updates the in-memory value first and never
rolls it back: for every store, filesystem, message and write outcome, the
store returned by `SetMessage` carries the new message, and when the
persist step fails the call returns an error while the filesystem is left
untouched (the error branch produces no new filesystem), so memory and
disk can diverge. -/
theorem setMessage_memory_first (s : MessageStore) (fs : FS) (m : String) (writeOk : Bool) :
    MessageStore.GetMessage (MessageStore.SetMessage s fs m writeOk).1 = m ∧
    (MessageStore.SetMessage s fs m false).2 = Except.error "failed to write message file" :=
  ⟨rfl, rfl⟩

/-- C2: for every message `m` that does not trim to empty, `SetMessage m`
on a store rooted at a data directory (with any prior in-memory value)
followed by `GetMessage` returns `m` exactly, the persisted document is
the object with field `message` set to `m`, and a fresh store built by
`NewMessageStore` on the same data directory returns `m` from
`GetMessage` after a successful `Load` of that document. -/
theorem setMessage_getMessage_roundtrip (dataPath m0 : String) (fs : FS) (m : String)
    (h : trimSpace m ≠ "") :
    MessageStore.GetMessage
      (MessageStore.SetMessage { filePath := dataPath ++ "/message.json", data := { message := m0 } } fs m true).1 = m ∧
    (MessageStore.SetMessage { filePath := dataPath ++ "/message.json", data := { message := m0 } } fs m true).2 =
      Except.ok (fsWrite fs (dataPath ++ "/message.json")
        (FileContent.json (Json.obj [("message", Json.str m)]))) ∧
    MessageStore.Load (NewMessageStore dataPath)
      (fsWrite fs (dataPath ++ "/message.json") (FileContent.json (Json.obj [("message", Json.str m)]))) true true =
      Except.ok ({ filePath := dataPath ++ "/message.json", data := { message := m } },
        fsWrite fs (dataPath ++ "/message.json") (FileContent.json (Json.obj [("message", Json.str m)]))) ∧
    MessageStore.GetMessage { filePath := dataPath ++ "/message.json", data := { message := m } } = m := by
  refine ⟨rfl, rfl, ?_, rfl⟩
  have hread := fsRead_fsWrite fs (dataPath ++ "/message.json")
    (FileContent.json (Json.obj [("message", Json.str m)]))
  unfold MessageStore.Load
  rw [show (NewMessageStore dataPath).filePath = dataPath ++ "/message.json" from rfl, hread]
  rfl

/-- C2, witness: the round trip at message `"Hi"` on data directory
`"/data"`. -/
theorem setMessage_getMessage_roundtrip_witness :
    MessageStore.GetMessage
      (MessageStore.SetMessage { filePath := "/data" ++ "/message.json", data := { message := "Hello, World!" } } [] "Hi" true).1 = "Hi" :=
  (setMessage_getMessage_roundtrip "/data" "Hello, World!" [] "Hi" (by decide)).1

/-- C3: when the backing file does not exist, `Load` on a fresh store
succeeds and writes the document with field `message` set to
`"Hello, World!"` to `<dataPath>/message.json`, `GetMessage` returns
`"Hello, World!"`, and a second `Load` on the now-existing file succeeds
and returns the filesystem unchanged. -/
theorem load_missing_file_creates_default (dataPath : String) (fs : FS) (readOk writeOk2 : Bool)
    (h : fsRead fs (dataPath ++ "/message.json") = none) :
    MessageStore.Load (NewMessageStore dataPath) fs readOk true =
      Except.ok (NewMessageStore dataPath,
        fsWrite fs (dataPath ++ "/message.json")
          (FileContent.json (Json.obj [("message", Json.str "Hello, World!")]))) ∧
    MessageStore.GetMessage (NewMessageStore dataPath) = "Hello, World!" ∧
    MessageStore.Load (NewMessageStore dataPath)
      (fsWrite fs (dataPath ++ "/message.json")
        (FileContent.json (Json.obj [("message", Json.str "Hello, World!")]))) true writeOk2 =
      Except.ok (NewMessageStore dataPath,
        fsWrite fs (dataPath ++ "/message.json")
          (FileContent.json (Json.obj [("message", Json.str "Hello, World!")]))) := by
  refine ⟨?_, rfl, ?_⟩
  · unfold MessageStore.Load
    rw [show (NewMessageStore dataPath).filePath = dataPath ++ "/message.json" from rfl, h]
    rfl
  · have hread := fsRead_fsWrite fs (dataPath ++ "/message.json")
      (FileContent.json (Json.obj [("message", Json.str "Hello, World!")]))
    unfold MessageStore.Load
    rw [show (NewMessageStore dataPath).filePath = dataPath ++ "/message.json" from rfl, hread]
    rfl

/-- C3, witness: `Load` on the empty filesystem at data directory
`"/data"`. -/
theorem load_missing_file_creates_default_witness :
    MessageStore.Load (NewMessageStore "/data") [] true true =
      Except.ok (NewMessageStore "/data",
        fsWrite [] ("/data" ++ "/message.json")
          (FileContent.json (Json.obj [("message", Json.str "Hello, World!")]))) :=
  (load_missing_file_creates_default "/data" [] true true rfl).1

/-- C4: when the backing file exists but its bytes are not valid JSON,
`Load` returns the unmarshal error; since the error branch produces no new
store and no new filesystem, the in-memory value is not reset to the
default and the corrupt file is not overwritten. -/
theorem load_malformed_file_errors (s : MessageStore) (fs : FS) (raw : String) (writeOk : Bool)
    (h : fsRead fs s.filePath = some (FileContent.malformed raw)) :
    MessageStore.Load s fs true writeOk = Except.error "failed to unmarshal message data" := by
  unfold MessageStore.Load
  rw [h]
  rfl

/-- C4, witness: `Load` on a file holding the bytes `not json`. -/
theorem load_malformed_file_errors_witness :
    MessageStore.Load (NewMessageStore "/data")
      [("/data/message.json", FileContent.malformed "not json")] true true =
      Except.error "failed to unmarshal message data" :=
  load_malformed_file_errors (NewMessageStore "/data")
    [("/data/message.json", FileContent.malformed "not json")] "not json" true rfl

/-- C5, counterexample: the claim says a body that does not parse as JSON
with a `message` field yields the `Invalid JSON` error. The empty JSON
object is valid JSON without a `message` field, yet the handler binds it
(the field defaults to the empty string) and answers 400 with
`Message cannot be empty`, not `Invalid JSON`. -/
theorem post_message_empty_object_counterexample :
    (Handlers.SetMessage (NewMessageStore "/data") [] (RequestBody.json (Json.obj [])) true).1.status = 400 ∧
    (Handlers.SetMessage (NewMessageStore "/data") [] (RequestBody.json (Json.obj [])) true).1.body =
      Json.obj [("error", Json.str "Message cannot be empty")] ∧
    ("Message cannot be empty" : String) ≠ "Invalid JSON" :=
  ⟨rfl, rfl, by decide⟩

/-- C5, amended: if the body fails to bind (malformed JSON, or a `message`
field that is not a string) the response is 400 `Invalid JSON`; if it
binds and the message — which is the empty string when the field is
absent — trims to empty, the response is 400 `Message cannot be empty`;
otherwise, with the persist step succeeding, the handler stores the
original untrimmed text, responds 200 echoing exactly the stored value,
and a subsequent `GET /message` returns that value. -/
theorem post_message_validation (s : MessageStore) (fs : FS) (body : RequestBody) (writeOk : Bool) :
    (∀ e, bindMessageRequest body = Except.error e →
      Handlers.SetMessage s fs body writeOk =
        ({ status := 400, body := Json.obj [("error", Json.str "Invalid JSON")] }, s, fs)) ∧
    (∀ req, bindMessageRequest body = Except.ok req → trimSpace req.message = "" →
      Handlers.SetMessage s fs body writeOk =
        ({ status := 400, body := Json.obj [("error", Json.str "Message cannot be empty")] }, s, fs)) ∧
    (∀ req, bindMessageRequest body = Except.ok req → trimSpace req.message ≠ "" →
      Handlers.SetMessage s fs body true =
        ({ status := 200, body := Json.obj [("message", Json.str req.message)] },
          { s with data := { s.data with message := req.message } },
          fsWrite fs s.filePath (FileContent.json (Json.obj [("message", Json.str req.message)]))) ∧
      Handlers.GetMessage { s with data := { s.data with message := req.message } } =
        { status := 200, body := Json.obj [("message", Json.str req.message)] }) := by
  refine ⟨?_, ?_, ?_⟩
  · intro e he
    unfold Handlers.SetMessage
    rw [he]
  · intro req hq ht
    unfold Handlers.SetMessage
    rw [hq]
    simp [ht]
  · intro req hq ht
    refine ⟨?_, rfl⟩
    unfold Handlers.SetMessage
    rw [hq]
    simp [ht, MessageStore.SetMessage, MessageStore.saveNoLock, marshalMessageData]

/-- C5, witness: posting the body with `message` set to `"Hi"` answers 200
echoing `"Hi"`, with the store updated and the document persisted. -/
theorem post_message_validation_witness :
    Handlers.SetMessage (NewMessageStore "/data") []
      (RequestBody.json (Json.obj [("message", Json.str "Hi")])) true =
      ({ status := 200, body := Json.obj [("message", Json.str "Hi")] },
        { filePath := "/data/message.json", data := { message := "Hi" } },
        [("/data/message.json", FileContent.json (Json.obj [("message", Json.str "Hi")]))]) := by
  have h := (post_message_validation (NewMessageStore "/data") []
    (RequestBody.json (Json.obj [("message", Json.str "Hi")])) true).2.2
    { message := "Hi" } rfl (by decide)
  exact h.1

/-- C6: with a configuration document specifying port 9000, an environment
override specifying port 9100 and a flag specifying port 9200, the
effective port is 9200; without the flag it is 9100; without the
environment override it is 9000; without the document it is the built-in
default 8080. -/
theorem config_precedence_flags_env_file_default :
    (resolveEffective
        [("/home/user/.greetd/config.json",
          FileContent.json (Json.obj [("server", Json.obj [("port", Json.num 9000)])]))]
        "/home/user" { serverPort := some 9100 } "" 9200).map (fun p => p.1.server.port) =
      Except.ok 9200 ∧
    (resolveEffective
        [("/home/user/.greetd/config.json",
          FileContent.json (Json.obj [("server", Json.obj [("port", Json.num 9000)])]))]
        "/home/user" { serverPort := some 9100 } "" 0).map (fun p => p.1.server.port) =
      Except.ok 9100 ∧
    (resolveEffective
        [("/home/user/.greetd/config.json",
          FileContent.json (Json.obj [("server", Json.obj [("port", Json.num 9000)])]))]
        "/home/user" {} "" 0).map (fun p => p.1.server.port) =
      Except.ok 9000 ∧
    (resolveEffective [] "/home/user" {} "" 0).map (fun p => p.1.server.port) =
      Except.ok 8080 :=
  ⟨rfl, rfl, rfl, rfl⟩

/-- C7: the built-in defaults are host `0.0.0.0`, port 8080, log level
`info`, log format `text` and data directory `<home>/.greetd`; and when
the configuration document does not exist at the resolved path,
`config.Load` writes exactly those defaults there before reading them
back, so it succeeds, returns the default configuration and creates the
file. -/
theorem config_load_missing_file_writes_defaults (homeDir : String) (fs : FS)
    (h : fsRead fs (homeDir ++ "/.greetd" ++ "/config.json") = none) :
    DefaultConfig homeDir =
      { server := { host := "0.0.0.0", port := 8080 },
        logging := { level := "info", format := "text" },
        dataPath := homeDir ++ "/.greetd" } ∧
    Config.Load fs "" homeDir {} true true =
      Except.ok (DefaultConfig homeDir,
        fsWrite fs (homeDir ++ "/.greetd" ++ "/config.json")
          (FileContent.json (marshalConfig (DefaultConfig homeDir)))) := by
  refine ⟨rfl, ?_⟩
  simp only [Config.Load, ite_true, DefaultConfig]
  rw [h]
  rfl

/-- C7, witness: `config.Load` on the empty filesystem with home directory
`"/home/user"`. -/
theorem config_load_missing_file_writes_defaults_witness :
    Config.Load [] "" "/home/user" {} true true =
      Except.ok (DefaultConfig "/home/user",
        fsWrite [] ("/home/user" ++ "/.greetd" ++ "/config.json")
          (FileContent.json (marshalConfig (DefaultConfig "/home/user")))) :=
  (config_load_missing_file_writes_defaults "/home/user" [] rfl).2

/-- C9: on a freshly constructed store on any data directory, `GetMessage`
returns the default `"Hello, World!"`; by its type it reads no filesystem
and cannot fail. -/
theorem fresh_store_getMessage_default (dataPath : String) :
    MessageStore.GetMessage (NewMessageStore dataPath) = "Hello, World!" :=
  rfl

/-- C10, counterexample: the claim says `Load` succeeds on any valid JSON
value in the backing file. The file holding the bare number 5 is valid
JSON, yet unmarshalling it into the message struct fails, so `Load`
returns the unmarshal error. -/
theorem load_valid_json_number_counterexample :
    MessageStore.Load (NewMessageStore "/data")
      [("/data/message.json", FileContent.json (Json.num 5))] true true =
      Except.error "failed to unmarshal message data" :=
  rfl

/-- Unfolding lemma: a JSON object unmarshals into `MessageData` by
walking its fields. -/
theorem unmarshalMessageData_obj (fields : List (String × Json)) (d : MessageData) :
    unmarshalMessageData (Json.obj fields) d = unmarshalFields fields d :=
  rfl

/-- When the backing file exists and holds a JSON document, `Load` is the
result of unmarshalling that document into the current data. -/
theorem load_of_existing_json (s : MessageStore) (fs : FS) (j : Json) (writeOk : Bool)
    (h : fsRead fs s.filePath = some (FileContent.json j)) :
    MessageStore.Load s fs true writeOk =
      (match unmarshalMessageData j s.data with
       | Except.ok d => Except.ok ({ s with data := d }, fs)
       | Except.error _ => Except.error "failed to unmarshal message data") := by
  unfold MessageStore.Load
  rw [h]
  rfl

/-- Decoding a value that is neither a string nor `null` into the
`message` field is a type error. -/
theorem setMessageField_error (d : MessageData) (v : Json)
    (hs : ∀ m, v ≠ Json.str m) (hn : v ≠ Json.null) :
    setMessageField d v =
      Except.error "cannot unmarshal value into field MessageData.message of type string" := by
  cases v
  case null => exact absurd rfl hn
  case str m => exact absurd rfl (hs m)
  all_goals rfl

/-- Walking an object all of whose `message`-matching fields carry a
string or `null` succeeds. -/
theorem unmarshalFields_ok_of_str_or_null (fields : List (String × Json)) (d : MessageData)
    (h : ∀ kv ∈ fields, keyMatches kv.1 "message" = true →
      (∃ m, kv.2 = Json.str m) ∨ kv.2 = Json.null) :
    ∃ d2, unmarshalFields fields d = Except.ok d2 := by
  induction fields generalizing d with
  | nil => exact ⟨d, rfl⟩
  | cons kv rest ih =>
    obtain ⟨k, v⟩ := kv
    by_cases hk : keyMatches k "message" = true
    · rcases h (k, v) (by simp) hk with ⟨m, hm⟩ | hnull
      · subst hm
        simpa [unmarshalFields, hk, setMessageField] using
          ih { d with message := m } (fun kv hkv => h kv (by simp [hkv]))
      · subst hnull
        simpa [unmarshalFields, hk, setMessageField] using
          ih d (fun kv hkv => h kv (by simp [hkv]))
    · simpa [unmarshalFields, hk] using ih d (fun kv hkv => h kv (by simp [hkv]))

/-- Walking an object none of whose fields matches `message` leaves the
data unchanged. -/
theorem unmarshalFields_no_match (fields : List (String × Json)) (d : MessageData)
    (h : ∀ kv ∈ fields, keyMatches kv.1 "message" = false) :
    unmarshalFields fields d = Except.ok d := by
  induction fields with
  | nil => rfl
  | cons kv rest ih =>
    obtain ⟨k, v⟩ := kv
    have hk := h (k, v) (by simp)
    simpa [unmarshalFields, hk] using ih (fun kv hkv => h kv (by simp [hkv]))

/-- Walking an object whose first `message`-matching field carries a
value that is neither a string nor `null` fails with the type error. -/
theorem unmarshalFields_error_of_bad_first (pre : List (String × Json)) (k : String)
    (v : Json) (rest : List (String × Json)) (d : MessageData)
    (hpre : ∀ kv ∈ pre, keyMatches kv.1 "message" = false)
    (hk : keyMatches k "message" = true)
    (hs : ∀ m, v ≠ Json.str m) (hn : v ≠ Json.null) :
    unmarshalFields (pre ++ (k, v) :: rest) d =
      Except.error "cannot unmarshal value into field MessageData.message of type string" := by
  induction pre with
  | nil => simp [unmarshalFields, hk, setMessageField_error d v hs hn]
  | cons kv pre ih =>
    obtain ⟨k2, v2⟩ := kv
    have hk2 := hpre (k2, v2) (by simp)
    simpa [unmarshalFields, hk2] using ih (fun kv hkv => hpre kv (by simp [hkv]))

/-- C10, amended: `Load` succeeds on a backing file holding any JSON
object whose `message`-matching fields, if any, all carry a string (or
`null`, a no-op); when no field matches `message` — for instance the
empty object — the prior in-memory value is kept (the default on first
load); an object with `message` set to a string `m`, including the empty
string, loads with the value `m`; but an object whose first
`message`-matching field carries a value that is neither a string nor
`null` makes `Load` fail, as does a valid non-object JSON value such as a
bare number. -/
theorem load_json_object_semantics (writeOk : Bool) :
    (∀ s : MessageStore, ∀ fs : FS, ∀ fields : List (String × Json),
      (∀ kv ∈ fields, keyMatches kv.1 "message" = true →
        (∃ m, kv.2 = Json.str m) ∨ kv.2 = Json.null) →
      fsRead fs s.filePath = some (FileContent.json (Json.obj fields)) →
      ∃ d, MessageStore.Load s fs true writeOk = Except.ok ({ s with data := d }, fs)) ∧
    (∀ s : MessageStore, ∀ fs : FS, ∀ fields : List (String × Json),
      (∀ kv ∈ fields, keyMatches kv.1 "message" = false) →
      fsRead fs s.filePath = some (FileContent.json (Json.obj fields)) →
      MessageStore.Load s fs true writeOk = Except.ok (s, fs)) ∧
    (∀ s : MessageStore, ∀ fs : FS, ∀ m : String,
      fsRead fs s.filePath = some (FileContent.json (Json.obj [("message", Json.str m)])) →
      MessageStore.Load s fs true writeOk =
        Except.ok ({ s with data := { message := m } }, fs)) ∧
    (∀ s : MessageStore, ∀ fs : FS, ∀ pre : List (String × Json), ∀ k : String, ∀ v : Json,
      ∀ rest : List (String × Json),
      (∀ kv ∈ pre, keyMatches kv.1 "message" = false) →
      keyMatches k "message" = true →
      (∀ m, v ≠ Json.str m) → v ≠ Json.null →
      fsRead fs s.filePath = some (FileContent.json (Json.obj (pre ++ (k, v) :: rest))) →
      MessageStore.Load s fs true writeOk =
        Except.error "failed to unmarshal message data") ∧
    (∀ s : MessageStore, ∀ fs : FS, ∀ n : Int,
      fsRead fs s.filePath = some (FileContent.json (Json.num n)) →
      MessageStore.Load s fs true writeOk =
        Except.error "failed to unmarshal message data") := by
  refine ⟨?_, ?_, ?_, ?_, ?_⟩
  · intro s fs fields hf hread
    obtain ⟨d2, hd⟩ := unmarshalFields_ok_of_str_or_null fields s.data hf
    refine ⟨d2, ?_⟩
    rw [load_of_existing_json s fs _ writeOk hread, unmarshalMessageData_obj, hd]
  · intro s fs fields hf hread
    rw [load_of_existing_json s fs _ writeOk hread, unmarshalMessageData_obj,
      unmarshalFields_no_match fields s.data hf]
  · intro s fs m hread
    rw [load_of_existing_json s fs _ writeOk hread]
    rfl
  · intro s fs pre k v rest hpre hk hs hn hread
    rw [load_of_existing_json s fs _ writeOk hread, unmarshalMessageData_obj,
      unmarshalFields_error_of_bad_first pre k v rest s.data hpre hk hs hn]
  · intro s fs n hread
    rw [load_of_existing_json s fs _ writeOk hread]
    rfl

/-- C10, witness: the empty object keeps the default value, an object
with `message` set to the empty string yields the empty string, and an
object whose `message` field is a boolean makes `Load` fail. -/
theorem load_json_object_semantics_witness :
    MessageStore.Load (NewMessageStore "/data")
      [("/data/message.json", FileContent.json (Json.obj []))] true true =
      Except.ok (NewMessageStore "/data",
        [("/data/message.json", FileContent.json (Json.obj []))]) ∧
    MessageStore.Load (NewMessageStore "/data")
      [("/data/message.json", FileContent.json (Json.obj [("message", Json.str "")]))] true true =
      Except.ok ({ filePath := "/data/message.json", data := { message := "" } },
        [("/data/message.json", FileContent.json (Json.obj [("message", Json.str "")]))]) ∧
    MessageStore.Load (NewMessageStore "/data")
      [("/data/message.json", FileContent.json (Json.obj [("message", Json.bool true)]))] true true =
      Except.error "failed to unmarshal message data" :=
  ⟨(load_json_object_semantics true).2.1 (NewMessageStore "/data")
      [("/data/message.json", FileContent.json (Json.obj []))] [] (by simp) rfl,
    (load_json_object_semantics true).2.2.1 (NewMessageStore "/data")
      [("/data/message.json", FileContent.json (Json.obj [("message", Json.str "")]))] "" rfl,
    (load_json_object_semantics true).2.2.2.1 (NewMessageStore "/data")
      [("/data/message.json", FileContent.json (Json.obj [("message", Json.bool true)]))]
      [] "message" (Json.bool true) [] (by simp) (by decide)
      (by intro m h; cases h) (by intro h; cases h) rfl⟩

end Greetd
